import Mathlib

/-!
Shallow embedding of the metrics core of the OFTW dashboard
(`OFTW_Dashboard.py`): fiscal-year calculator, currency normalizer and
metrics engine, together with proofs settling the specification claims.

Python strings are modelled as `List Char`, pandas timestamps as a
`Date` triple, `NaN`/missing values as `Option`, and floats as `ℚ`.
-/

set_option maxHeartbeats 1000000

namespace OFTW

/-- A calendar date. Models a `pandas.Timestamp` at midnight, as produced
by `pd.to_datetime` on a date-only string. Python year values are ints. -/
structure Date where
  year : Int
  month : Nat
  day : Nat
deriving DecidableEq, Repr

/-- `a ≤ b` on dates: the lexicographic order on (year, month, day),
modelling pandas `Timestamp` comparison for date-only timestamps. -/
def Date.le (a b : Date) : Bool :=
  decide (a.year < b.year ∨ (a.year = b.year ∧
    (a.month < b.month ∨ (a.month = b.month ∧ a.day ≤ b.day))))

/-- Earliest date-only value constructible as a `pandas.Timestamp`
(`Timestamp.min` is 1677-09-21 23:47:16.85…, so midnight of 1677-09-21
is out of bounds and 1677-09-22 is the first valid date-only value). -/
def tsMinDate : Date := ⟨1677, 9, 22⟩

/-- Latest date-only value constructible as a `pandas.Timestamp`
(`Timestamp.max` is 2262-04-11 23:47:16.85…). -/
def tsMaxDate : Date := ⟨2262, 4, 11⟩

/-- Models `pd.Timestamp("{y}-{m}-{d}")` for a four-digit year `y`:
out-of-bounds dates raise `OutOfBoundsDatetime` (and five-digit years a
`ValueError`), modelled as `none`. (Years of fewer than four digits are
reinterpreted by the underlying parser and are not modelled; every use
in this development has a four-or-more-digit year.) -/
def pdTimestamp (y : Int) (m d : Nat) : Option Date :=
  let dt : Date := ⟨y, m, d⟩
  if tsMinDate.le dt && dt.le tsMaxDate then some dt else none

/-- Decimal digit character for `n < 10`, as in Python `str(int)`. -/
def digitChar (n : Nat) : Char := Char.ofNat (48 + n)

/-- Fuel-driven digit accumulator behind `natToChars` (structural
recursion so that the kernel can evaluate it; the fuel is always
sufficient at the call site). -/
def natToCharsCore : Nat → Nat → List Char → List Char
  | 0, _, ds => ds
  | fuel + 1, n, ds =>
    if n < 10 then digitChar n :: ds
    else natToCharsCore fuel (n / 10) (digitChar (n % 10) :: ds)

/-- Decimal rendering of a natural number, modelling Python `str(n)`
inside an f-string for `n ≥ 0`. -/
def natToChars (n : Nat) : List Char := natToCharsCore (n + 1) n []

/-- Decimal rendering of a Python int, signs included: `str(i)`. -/
def intToChars (i : Int) : List Char :=
  if i < 0 then '-' :: natToChars (-i).toNat else natToChars i.toNat

/-- The f-string `f"FY{y1}-{y2}"` used by `get_fiscal_year` (with
`y2 = y1 + 1`) and parsed back by `get_fiscal_year_range`. -/
def fyLabel (y1 y2 : Int) : List Char :=
  'F' :: 'Y' :: (intToChars y1 ++ '-' :: intToChars y2)

/-- `get_fiscal_year(date)` from `OFTW_Dashboard.py`: July–December maps
to `FY{year}-{year+1}`, January–June to `FY{year-1}-{year}`. -/
def get_fiscal_year (date : Date) : List Char :=
  if date.month ≥ 7 then fyLabel date.year (date.year + 1)
  else fyLabel (date.year - 1) date.year

/-- Python `s.split('-')`: split on every `'-'`, keeping empty pieces. -/
def splitOnDash : List Char → List (List Char)
  | [] => [[]]
  | c :: cs =>
    if c = '-' then [] :: splitOnDash cs
    else
      match splitOnDash cs with
      | [] => [[c]]
      | t :: ts => (c :: t) :: ts

/-- Python `s.replace('FY', '')`: remove every (left-to-right,
non-overlapping) occurrence of the substring `"FY"`. -/
def removeFY : List Char → List Char
  | [] => []
  | [c] => [c]
  | c1 :: c2 :: cs =>
    if c1 = 'F' ∧ c2 = 'Y' then removeFY cs
    else c1 :: removeFY (c2 :: cs)

/-- Numeric value of a decimal digit character. -/
def digitVal (c : Char) : Nat := c.toNat - 48

/-- Python `int(s)` on an unsigned decimal string: the numeric value if
`s` is nonempty and all digits, otherwise a `ValueError` (`none`). -/
def parseDigits (l : List Char) : Option Nat :=
  if l ≠ [] ∧ l.all Char.isDigit then
    some (l.foldl (fun acc c => acc * 10 + digitVal c) 0)
  else none

/-- Python `int(s)` with an optional leading sign. (Surrounding
whitespace and underscore separators, which Python also accepts, are
not modelled; no caller in this program produces them.) -/
def parseInt (l : List Char) : Option Int :=
  match l with
  | '-' :: rest => (parseDigits rest).map (fun n => -(n : Int))
  | '+' :: rest => (parseDigits rest).map (fun n => (n : Int))
  | _ => (parseDigits l).map (fun n => (n : Int))

/-- The parsing step of `get_fiscal_year_range`:
`year1 = int(fiscal_year.split('-')[0].replace('FY', ''))` and
`year2 = int(fiscal_year.split('-')[1])`. `none` models the
`IndexError`/`ValueError` raised on a malformed label. -/
def fyRangeParse (fy : List Char) : Option (Int × Int) :=
  match splitOnDash fy with
  | p0 :: p1 :: _ =>
    match parseInt (removeFY p0), parseInt p1 with
    | some y1, some y2 => some (y1, y2)
    | _, _ => none
  | _ => none

/-- `get_fiscal_year_range(fiscal_year)` from `OFTW_Dashboard.py`: parse
the label into two years and build `pd.Timestamp(f"{year1}-07-01")` and
`pd.Timestamp(f"{year2}-06-30")`; on any exception the function returns
`(pd.Timestamp.now(), pd.Timestamp.now())`. The current time is passed
in explicitly as `now`. -/
def get_fiscal_year_range (now : Date) (fiscal_year : List Char) :
    Date × Date :=
  match fyRangeParse fiscal_year with
  | some (y1, y2) =>
    match pdTimestamp y1 7 1, pdTimestamp y2 6 30 with
    | some s, some e => (s, e)
    | _, _ => (now, now)
  | none => (now, now)

/-- A raw payment row (the columns of `Payments.csv` that the metrics
core reads). Amounts are modelled as `ℚ`. -/
structure Payment where
  date : Date
  amount : ℚ
  currency : String
  portfolio : String
  counterfactuality : ℚ
deriving DecidableEq, Repr

/-- A payment row after normalization: the raw row plus the derived
`amount_usd` column. `none` models a `NaN` entry. -/
structure NormPayment extends Payment where
  amount_usd : Option ℚ
deriving DecidableEq, Repr

/-- The six per-currency exchange-rate series loaded by
`load_exchange_rates`, viewed after the left-merge on `date`: each is a
partial map from date to rate (`none` models a date absent from the
series, which the merge turns into `NaN`). Field names follow the FRED
column kept after the merge. -/
structure RateTables where
  /-- DEXUSUK: USD per GBP. -/
  gbp : Date → Option ℚ
  /-- DEXCAUS: CAD per USD. -/
  cad : Date → Option ℚ
  /-- DEXUSAL: USD per AUD. -/
  aud : Date → Option ℚ
  /-- DEXUSEU: USD per EUR. -/
  eur : Date → Option ℚ
  /-- DEXSIUS: SGD per USD. -/
  sgd : Date → Option ℚ
  /-- DEXSZUS: CHF per USD. -/
  chf : Date → Option ℚ

/-- The row lambda of `convert_payments_to_usd`: the nested conditional
chain choosing the rate column and the multiply/divide direction per
currency, with `row['amount']` as the final fallback. `Option.map`
models IEEE `NaN` propagation through `*` and `/` (a missing rate makes
`amount_usd` `NaN`). Division by a present rate is exact rational
division; the rate series contain no zeros, so float division by zero
is not modelled. -/
def convertPayment (rt : RateTables) (p : Payment) : NormPayment :=
  { toPayment := p
    amount_usd :=
      if p.currency = "GBP" then (rt.gbp p.date).map (fun r => p.amount * r)
      else if p.currency = "CAD" then (rt.cad p.date).map (fun r => p.amount / r)
      else if p.currency = "AUD" then (rt.aud p.date).map (fun r => p.amount * r)
      else if p.currency = "EUR" then (rt.eur p.date).map (fun r => p.amount * r)
      else if p.currency = "SGD" then (rt.sgd p.date).map (fun r => p.amount / r)
      else if p.currency = "CHF" then (rt.chf p.date).map (fun r => p.amount / r)
      else some p.amount }

/-- `convert_payments_to_usd` from `OFTW_Dashboard.py`: merge the rate
series on `date` and apply the row lambda to every row (`df.apply`
with `axis=1`). -/
def convert_payments_to_usd (rt : RateTables) (payments_df : List Payment) :
    List NormPayment :=
  payments_df.map (convertPayment rt)

/-- The boolean mask `(df['date'] >= start_date) & (df['date'] <= end_date)`. -/
def inRange (s e d : Date) : Bool := s.le d && d.le e

/-- `df['amount_usd'].sum()`: pandas sums with `skipna=True`, so a `NaN`
entry contributes nothing. -/
def sumUsd (df : List NormPayment) : ℚ :=
  (df.map (fun p => p.amount_usd.getD 0)).sum

/-- `calculate_money_moved(df, fiscal_year=None)` from
`OFTW_Dashboard.py`. `fiscal_year = some []` models the Python empty
string, which is falsy in `if fiscal_year:` just like `None`. -/
def calculate_money_moved (now : Date) (df : List NormPayment)
    (fiscal_year : Option (List Char)) : ℚ :=
  match fiscal_year with
  | some fy =>
    if fy ≠ [] then
      let se := get_fiscal_year_range now fy
      let filtered_df := df.filter (fun p => inRange se.1 se.2 p.date)
      if filtered_df ≠ [] then sumUsd filtered_df else 0
    else if df ≠ [] then sumUsd df else 0
  | none => if df ≠ [] then sumUsd df else 0

/-- The mask `df['portfolio'].isin([...])` excluding the two internal
portfolios in `calculate_counterfactual_mm`. -/
def cfExcluded (p : NormPayment) : Bool :=
  decide (p.portfolio = "One for the World Discretionary Fund" ∨
    p.portfolio = "One for the World Operating Costs")

/-- The derived column
`counterfactual_amount = amount_usd * counterfactuality`, as it
contributes to a pandas sum: a `NaN` `amount_usd` makes the product
`NaN`, which the sum skips. -/
def cfAmount (p : NormPayment) : ℚ :=
  ((p.amount_usd.map (fun a => a * p.counterfactuality)).getD 0)

/-- `filtered_df['counterfactual_amount'].sum()`. -/
def sumCf (df : List NormPayment) : ℚ := (df.map cfAmount).sum

/-- `calculate_counterfactual_mm(df, fiscal_year=None)` from
`OFTW_Dashboard.py`: drop the two internal portfolios, build the
counterfactual amount column, then sum (optionally date-scoped). -/
def calculate_counterfactual_mm (now : Date) (df : List NormPayment)
    (fiscal_year : Option (List Char)) : ℚ :=
  let filtered_df := df.filter (fun p => ! cfExcluded p)
  match fiscal_year with
  | some fy =>
    if fy ≠ [] then
      let se := get_fiscal_year_range now fy
      let year_df := filtered_df.filter (fun p => inRange se.1 se.2 p.date)
      if year_df ≠ [] then sumCf year_df else 0
    else if filtered_df ≠ [] then sumCf filtered_df else 0
  | none => if filtered_df ≠ [] then sumCf filtered_df else 0

/-- A pledge row (the columns of `Pledge.csv` that the metrics core
reads), after normalization added `amount_usd` (`none` models `NaN`). -/
structure Pledge where
  pledge_id : String
  donor_id : String
  pledge_status : String
  pledge_starts_at : Date
  chapter_type : String
  amount_usd : Option ℚ
deriving DecidableEq, Repr

/-- The `annual_value` column of the ARR functions:
`amount_usd * 12`, as it contributes to a pandas sum (`NaN` skipped). -/
def annualValue (p : Pledge) : ℚ :=
  ((p.amount_usd.map (fun a => a * 12)).getD 0)

/-- The fiscal-year scoping step shared by `calculate_arr_by_channel`
and `calculate_chapter_arr`: filter on `pledge_starts_at` when a truthy
fiscal year is given. -/
def scopePledges (now : Date) (df : List Pledge)
    (fiscal_year : Option (List Char)) : List Pledge :=
  match fiscal_year with
  | some fy =>
    if fy ≠ [] then
      let se := get_fiscal_year_range now fy
      df.filter (fun p => inRange se.1 se.2 p.pledge_starts_at)
    else df
  | none => df

/-- `calculate_arr_by_channel(df, fiscal_year=None)` from
`OFTW_Dashboard.py`: scope, keep `pledge_status == 'Active donor'`,
sum `amount_usd * 12`. -/
def calculate_arr_by_channel (now : Date) (df : List Pledge)
    (fiscal_year : Option (List Char)) : ℚ :=
  let df' := scopePledges now df fiscal_year
  let active_pledges := df'.filter (fun p => p.pledge_status = "Active donor")
  (active_pledges.map annualValue).sum

/-- The mask `pledge_status.isin(['Payment failure', 'Churned donor'])`. -/
def isCancelled (p : Pledge) : Bool :=
  decide (p.pledge_status = "Payment failure" ∨
    p.pledge_status = "Churned donor")

/-- `calculate_pledge_attrition_rate(df)` from `OFTW_Dashboard.py`. -/
def calculate_pledge_attrition_rate (df : List Pledge) : ℚ :=
  let cancelled_pledges := (df.filter isCancelled).length
  let total_pledges := df.length
  if total_pledges > 0 then
    ((cancelled_pledges : ℚ) / (total_pledges : ℚ)) * 100
  else 0

/-- `count_active_donors(df)` from `OFTW_Dashboard.py`:
`df[status.isin(['Active donor', 'One-Time'])]['donor_id'].nunique()`. -/
def count_active_donors (df : List Pledge) : Nat :=
  ((df.filter (fun p => decide (p.pledge_status = "Active donor" ∨
    p.pledge_status = "One-Time"))).map (fun p => p.donor_id)).dedup.length

/-- `count_active_pledges(df)` from `OFTW_Dashboard.py`:
`df[status == 'Active donor']['pledge_id'].nunique()`. -/
def count_active_pledges (df : List Pledge) : Nat :=
  ((df.filter (fun p => p.pledge_status = "Active donor")).map
    (fun p => p.pledge_id)).dedup.length

/-- `calculate_chapter_arr(df, fiscal_year=None)` from
`OFTW_Dashboard.py`: scope, keep active pledges, group by
`chapter_type` and sum `annual_value` per group. Groups are listed in
order of first appearance (pandas sorts group keys; no claim depends on
the order). An empty input yields the empty grouping, as in the
source's `if chapter_arr.empty` branch. -/
def calculate_chapter_arr (now : Date) (df : List Pledge)
    (fiscal_year : Option (List Char)) : List (String × ℚ) :=
  let df' := scopePledges now df fiscal_year
  let active_pledges := df'.filter (fun p => p.pledge_status = "Active donor")
  let keys := (active_pledges.map (fun p => p.chapter_type)).dedup
  keys.map (fun k =>
    (k, ((active_pledges.filter (fun p => p.chapter_type = k)).map
      annualValue).sum))

/-- Modelled from the spec's words (for comparison with
`calculate_pledge_attrition_rate`): `attrition_rate(pledges) =
count(status ∈ {Payment failure, Churned donor}) / count(all pledges)
* 100`. -/
def spec_attrition_rate (df : List Pledge) : ℚ :=
  ((df.countP isCancelled : ℚ) / (df.length : ℚ)) * 100

/-! ### Lemmas on the decimal rendering and parsing helpers -/

theorem digitChar_isDigit {d : Nat} (h : d < 10) :
    (digitChar d).isDigit = true := by
  revert h
  have : ∀ d < 10, (digitChar d).isDigit = true := by decide
  exact this d

theorem digitVal_digitChar {d : Nat} (h : d < 10) :
    digitVal (digitChar d) = d := by
  revert h
  have : ∀ d < 10, digitVal (digitChar d) = d := by decide
  exact this d

theorem natToCharsCore_acc (fuel : Nat) :
    ∀ (n : Nat) (ds : List Char),
      natToCharsCore fuel n ds = natToCharsCore fuel n [] ++ ds := by
  induction fuel with
  | zero => intro n ds; rfl
  | succ f ih =>
    intro n ds
    simp only [natToCharsCore]
    by_cases h : n < 10
    · simp [h]
    · simp only [if_neg h]
      rw [ih (n / 10) (digitChar (n % 10) :: ds),
        ih (n / 10) [digitChar (n % 10)], List.append_assoc]
      rfl

theorem natToCharsCore_fuel (n : Nat) :
    ∀ f f', n < f → n < f' →
      natToCharsCore f n [] = natToCharsCore f' n [] := by
  induction n using Nat.strong_induction_on with
  | _ n ih =>
    intro f f' hf hf'
    cases f with
    | zero => omega
    | succ f =>
      cases f' with
      | zero => omega
      | succ f' =>
        simp only [natToCharsCore]
        by_cases h : n < 10
        · simp [h]
        · simp only [if_neg h]
          rw [natToCharsCore_acc f, natToCharsCore_acc f']
          rw [ih (n / 10) (by omega) f f' (by omega) (by omega)]

/-- Unfolding equation for `natToChars`: the fuel is always sufficient,
so the rendering satisfies the natural division recursion. -/
theorem natToChars_eq (n : Nat) :
    natToChars n =
      if n < 10 then [digitChar n]
      else natToChars (n / 10) ++ [digitChar (n % 10)] := by
  have hcore : natToChars n =
      if n < 10 then [digitChar n]
      else natToCharsCore n (n / 10) [digitChar (n % 10)] := rfl
  rw [hcore]
  by_cases h : n < 10
  · rw [if_pos h, if_pos h]
  · rw [if_neg h, if_neg h, natToCharsCore_acc]
    rw [natToCharsCore_fuel (n / 10) n (n / 10 + 1) (by omega) (by omega)]
    rfl

theorem natToChars_ne_nil (n : Nat) : natToChars n ≠ [] := by
  rw [natToChars_eq]
  by_cases h : n < 10 <;> simp [h]

theorem natToChars_digits (n : Nat) :
    ∀ c ∈ natToChars n, c.isDigit = true := by
  induction n using Nat.strong_induction_on with
  | _ n ih =>
    rw [natToChars_eq]
    by_cases h : n < 10
    · simpa [h] using digitChar_isDigit h
    · simp only [if_neg h, List.mem_append, List.mem_singleton]
      rintro c (hc | rfl)
      · exact ih (n / 10) (by omega) c hc
      · exact digitChar_isDigit (by omega)

theorem natToChars_foldl (n : Nat) :
    ∀ acc : Nat,
      (natToChars n).foldl (fun a c => a * 10 + digitVal c) acc
        = acc * 10 ^ (natToChars n).length + n := by
  induction n using Nat.strong_induction_on with
  | _ n ih =>
    intro acc
    rw [natToChars_eq]
    by_cases h : n < 10
    · simp [h, List.foldl, digitVal_digitChar h]
    · simp only [if_neg h, List.foldl_append, List.length_append,
        List.length_singleton, List.foldl]
      rw [ih (n / 10) (by omega) acc]
      rw [digitVal_digitChar (show n % 10 < 10 by omega)]
      rw [pow_succ]
      have hdm : n / 10 * 10 + n % 10 = n := by omega
      calc (acc * 10 ^ (natToChars (n / 10)).length + n / 10) * 10 + n % 10
          = acc * (10 ^ (natToChars (n / 10)).length * 10)
            + (n / 10 * 10 + n % 10) := by ring
        _ = acc * (10 ^ (natToChars (n / 10)).length * 10) + n := by
            rw [hdm]

theorem parseDigits_natToChars (n : Nat) :
    parseDigits (natToChars n) = some n := by
  unfold parseDigits
  rw [if_pos]
  · rw [natToChars_foldl n 0]
    simp
  · exact ⟨natToChars_ne_nil n,
      List.all_eq_true.2 (fun c hc => natToChars_digits n c hc)⟩

theorem isDigit_ne_dash {c : Char} (h : c.isDigit = true) : c ≠ '-' := by
  intro e; rw [e] at h; cases h

theorem isDigit_ne_plus {c : Char} (h : c.isDigit = true) : c ≠ '+' := by
  intro e; rw [e] at h; cases h

theorem isDigit_ne_F {c : Char} (h : c.isDigit = true) : c ≠ 'F' := by
  intro e; rw [e] at h; cases h

theorem parseInt_natToChars (n : Nat) :
    parseInt (natToChars n) = some (n : Int) := by
  obtain ⟨c, cs, hc⟩ : ∃ c cs, natToChars n = c :: cs := by
    cases h : natToChars n with
    | nil => exact absurd h (natToChars_ne_nil n)
    | cons c cs => exact ⟨c, cs, rfl⟩
  have hcd : c.isDigit = true := natToChars_digits n c (by rw [hc]; simp)
  rw [hc]
  unfold parseInt
  split
  · next rest heq =>
    exact absurd (List.head_eq_of_cons_eq heq) (isDigit_ne_dash hcd)
  · next rest heq =>
    exact absurd (List.head_eq_of_cons_eq heq) (isDigit_ne_plus hcd)
  · rw [← hc, parseDigits_natToChars]
    rfl

theorem splitOnDash_no_dash :
    ∀ l : List Char, '-' ∉ l → splitOnDash l = [l] := by
  intro l
  induction l with
  | nil => intro _; rfl
  | cons c cs ih =>
    intro h
    have hc : ¬(c = '-') := fun e => h (by simp [e])
    have h' : '-' ∉ cs := fun hm => h (List.mem_cons_of_mem c hm)
    simp only [splitOnDash, if_neg hc, ih h']

theorem splitOnDash_append (l₁ l₂ : List Char) (h : '-' ∉ l₁) :
    splitOnDash (l₁ ++ '-' :: l₂) = l₁ :: splitOnDash l₂ := by
  induction l₁ with
  | nil => simp [splitOnDash]
  | cons c cs ih =>
    have hc : ¬(c = '-') := fun e => h (by simp [e])
    have h' : '-' ∉ cs := fun hm => h (List.mem_cons_of_mem c hm)
    simp only [List.cons_append, splitOnDash, if_neg hc, List.append_eq]
    rw [ih h']

theorem removeFY_of_digits :
    ∀ l : List Char, (∀ c ∈ l, c.isDigit = true) → removeFY l = l := by
  have key : ∀ (k : Nat) (l : List Char), l.length ≤ k →
      (∀ c ∈ l, c.isDigit = true) → removeFY l = l := by
    intro k
    induction k with
    | zero =>
      intro l hl _
      cases l with
      | nil => rfl
      | cons c cs => simp at hl
    | succ k ih =>
      intro l hl h
      match l with
      | [] => rfl
      | [c] => rfl
      | c1 :: c2 :: cs =>
        have h1 : c1.isDigit = true := h c1 (by simp)
        have hne : ¬(c1 = 'F' ∧ c2 = 'Y') :=
          fun e => isDigit_ne_F h1 e.1
        simp only [removeFY, if_neg hne]
        rw [ih (c2 :: cs) (by simp at hl ⊢; omega)
          (fun c hc => h c (List.mem_cons_of_mem c1 hc))]
  exact fun l => key l.length l (le_refl _)

theorem intToChars_natCast (n : Nat) : intToChars (n : Int) = natToChars n := by
  unfold intToChars
  rw [if_neg (by omega : ¬(n : Int) < 0)]
  simp

/-- Round trip of the label builder through the parsing step of
`get_fiscal_year_range`: a label `f"FY{a}-{b}"` built from natural
years parses back to `(a, b)`. -/
theorem fyRangeParse_fyLabel (a b : Nat) :
    fyRangeParse (fyLabel (a : Int) (b : Int)) = some ((a : Int), (b : Int)) := by
  unfold fyRangeParse fyLabel
  rw [intToChars_natCast, intToChars_natCast]
  have hsplit :
      splitOnDash ('F' :: 'Y' :: (natToChars a ++ '-' :: natToChars b))
        = ('F' :: 'Y' :: natToChars a) :: splitOnDash (natToChars b) := by
    have : 'F' :: 'Y' :: (natToChars a ++ '-' :: natToChars b)
        = ('F' :: 'Y' :: natToChars a) ++ '-' :: natToChars b := by simp
    rw [this]
    apply splitOnDash_append
    intro hm
    simp only [List.mem_cons] at hm
    rcases hm with hm | hm | hm
    · exact absurd hm (by decide)
    · exact absurd hm (by decide)
    · exact isDigit_ne_dash (natToChars_digits a _ hm) rfl
  rw [hsplit, splitOnDash_no_dash (natToChars b)
    (fun hm => isDigit_ne_dash (natToChars_digits b _ hm) rfl)]
  have hrem : removeFY ('F' :: 'Y' :: natToChars a) = natToChars a := by
    have h2 : removeFY ('F' :: 'Y' :: natToChars a) = removeFY (natToChars a) := by
      cases h : natToChars a with
      | nil => exact absurd h (natToChars_ne_nil a)
      | cons c cs => simp [removeFY]
    rw [h2, removeFY_of_digits _ (natToChars_digits a)]
  show (match parseInt (removeFY ('F' :: 'Y' :: natToChars a)),
      parseInt (natToChars b) with
    | some y1, some y2 => some (y1, y2)
    | _, _ => none) = some ((a : Int), (b : Int))
  rw [hrem, parseInt_natToChars, parseInt_natToChars]

/-! ### Helper lemmas on timestamps and fiscal-year labels -/

theorem pdTimestamp_some {y : Int} (m d : Nat)
    (h1 : 1678 ≤ y) (h2 : y ≤ 2261) :
    pdTimestamp y m d = some ⟨y, m, d⟩ := by
  have hA : (tsMinDate.le ⟨y, m, d⟩ && Date.le ⟨y, m, d⟩ tsMaxDate) = true := by
    simp only [Date.le, tsMinDate, tsMaxDate, Bool.and_eq_true,
      decide_eq_true_eq]
    constructor
    · left; omega
    · left; omega
  simp only [pdTimestamp, hA, if_true]

theorem get_fiscal_year_july (y : Int) (d : Nat) :
    get_fiscal_year ⟨y, 7, d⟩ = fyLabel y (y + 1) := by
  simp [get_fiscal_year]

theorem get_fiscal_year_june (y : Int) (d : Nat) :
    get_fiscal_year ⟨y, 6, d⟩ = fyLabel (y - 1) y := by
  simp [get_fiscal_year]

/-- For in-bounds four-digit years the range construction succeeds and
yields July 1 of the first parsed year and June 30 of the second. -/
theorem get_fiscal_year_range_inbounds (now : Date) (a b : Nat)
    (ha1 : 1678 ≤ a) (ha2 : a ≤ 2261) (hb1 : 1678 ≤ b) (hb2 : b ≤ 2261) :
    get_fiscal_year_range now (fyLabel (a : Int) (b : Int))
      = (⟨(a : Int), 7, 1⟩, ⟨(b : Int), 6, 30⟩) := by
  unfold get_fiscal_year_range
  rw [fyRangeParse_fyLabel a b]
  show (match pdTimestamp (a : Int) 7 1, pdTimestamp (b : Int) 6 30 with
    | some s, some e => (s, e)
    | _, _ => (now, now)) = (⟨(a : Int), 7, 1⟩, ⟨(b : Int), 6, 30⟩)
  rw [pdTimestamp_some 7 1 (by exact_mod_cast ha1) (by exact_mod_cast ha2),
    pdTimestamp_some 6 30 (by exact_mod_cast hb1) (by exact_mod_cast hb2)]

/-! ### Claim C1 (fiscal-year parse failure) -/

/-- C1: evaluation of the code at the failing input. On the malformed
label `"garbage"` the parse step fails, and `get_fiscal_year_range`
(called with current time 2025-10-12) silently substitutes
`(now, now)` as the resulting range instead of propagating a parse
error — the behavior the claim (and the spec's intent) forbids. -/
theorem get_fiscal_year_range_malformed_substitutes_now :
    fyRangeParse ("garbage").data = none ∧
    get_fiscal_year_range ⟨2025, 10, 12⟩ ("garbage").data
      = (⟨2025, 10, 12⟩, ⟨2025, 10, 12⟩) :=
  ⟨by decide, by decide⟩

/-! ### Claim C4 (date to fiscal-year label) -/

/-- C4: for every calendar date (month between 1 and 12), a month of
July–December maps to `FY{year}-{year+1}` and a month of January–June
maps to `FY{year-1}-{year}`; in particular 2024-08-15 maps to
"FY2024-2025" and 2024-03-01 maps to "FY2023-2024". -/
theorem get_fiscal_year_month_split (y : Int) (m d : Nat)
    (h1 : 1 ≤ m) (h2 : m ≤ 12) :
    (7 ≤ m → get_fiscal_year ⟨y, m, d⟩ = fyLabel y (y + 1)) ∧
    (m ≤ 6 → get_fiscal_year ⟨y, m, d⟩ = fyLabel (y - 1) y) ∧
    get_fiscal_year ⟨2024, 8, 15⟩ = ("FY2024-2025").data ∧
    get_fiscal_year ⟨2024, 3, 1⟩ = ("FY2023-2024").data := by
  refine ⟨?_, ?_, by decide, by decide⟩
  · intro h
    unfold get_fiscal_year
    rw [if_pos (show (⟨y, m, d⟩ : Date).month ≥ 7 from h)]
  · intro h
    unfold get_fiscal_year
    rw [if_neg (show ¬(⟨y, m, d⟩ : Date).month ≥ 7 by show ¬(m ≥ 7); omega)]

/-- C4 witness: the July–December branch applied at 2024-08-15. -/
theorem get_fiscal_year_month_split_witness :
    (1 ≤ 8 ∧ 8 ≤ 12) ∧
    get_fiscal_year ⟨(2024 : Int), 8, 15⟩
      = fyLabel (2024 : Int) ((2024 : Int) + 1) :=
  ⟨by decide,
    (get_fiscal_year_month_split 2024 8 15 (by decide) (by decide)).1
      (by decide)⟩

/-! ### Claim C5 (fiscal_year_of and range_of are inverses) -/

/-- C5 counterexample: the claim fails as stated. "FY2262-2263" is a
well-formed label of the form `FY{n}-{n+1}` (with n = 2262), but July 1
of 2262 is past `pandas.Timestamp.max` (2262-04-11), so the range
construction raises and `get_fiscal_year_range` falls back to
`(now, now)`; applying `get_fiscal_year` to either endpoint of the
returned range (with current time 2025-10-12) yields "FY2025-2026",
not the input label. -/
theorem fiscal_year_roundtrip_out_of_bounds_cex :
    ("FY2262-2263").data = fyLabel (2262 : Int) ((2262 : Int) + 1) ∧
    get_fiscal_year
        (get_fiscal_year_range ⟨2025, 10, 12⟩ ("FY2262-2263").data).1
      ≠ ("FY2262-2263").data ∧
    get_fiscal_year
        (get_fiscal_year_range ⟨2025, 10, 12⟩ ("FY2262-2263").data).2
      ≠ ("FY2262-2263").data :=
  ⟨by decide, by decide, by decide⟩

/-- C5 (amended): for every well-formed label `FY{n}-{n+1}` whose two
dates fall inside the representable `pandas.Timestamp` range (that is,
1678 ≤ n ≤ 2260), `fiscal_year_of` and `range_of` are inverses:
`get_fiscal_year` of either endpoint of `get_fiscal_year_range` of the
label returns the label, whatever the current time is. -/
theorem fiscal_year_roundtrip_inbounds (now : Date) (n : Nat)
    (h1 : 1678 ≤ n) (h2 : n ≤ 2260) :
    get_fiscal_year
        (get_fiscal_year_range now (fyLabel (n : Int) ((n : Int) + 1))).1
      = fyLabel (n : Int) ((n : Int) + 1) ∧
    get_fiscal_year
        (get_fiscal_year_range now (fyLabel (n : Int) ((n : Int) + 1))).2
      = fyLabel (n : Int) ((n : Int) + 1) := by
  have hcast : (n : Int) + 1 = ((n + 1 : Nat) : Int) := by push_cast; ring
  rw [hcast, get_fiscal_year_range_inbounds now n (n + 1) h1 (by omega)
    (by omega) (by omega)]
  constructor
  · show get_fiscal_year ⟨(n : Int), 7, 1⟩
      = fyLabel (n : Int) ((n + 1 : Nat) : Int)
    rw [get_fiscal_year_july, hcast]
  · show get_fiscal_year ⟨((n + 1 : Nat) : Int), 6, 30⟩
      = fyLabel (n : Int) ((n + 1 : Nat) : Int)
    rw [get_fiscal_year_june]
    have h3 : ((n + 1 : Nat) : Int) - 1 = (n : Int) := by push_cast; ring
    rw [h3]

/-- C5 witness: the round trip at the concrete label "FY2023-2024". -/
theorem fiscal_year_roundtrip_inbounds_witness :
    1678 ≤ 2023 ∧ 2023 ≤ 2260 ∧
    get_fiscal_year
        (get_fiscal_year_range ⟨2025, 10, 12⟩
          (fyLabel ((2023 : Nat) : Int) (((2023 : Nat) : Int) + 1))).1
      = fyLabel ((2023 : Nat) : Int) (((2023 : Nat) : Int) + 1) :=
  ⟨by decide, by decide,
    (fiscal_year_roundtrip_inbounds ⟨2025, 10, 12⟩ 2023 (by decide)
      (by decide)).1⟩

/-! ### Claim C10 (no validation of non-canonical labels) -/

/-- C10 counterexample: the claim fails as stated for pairs of years
whose dates are not representable as pandas timestamps. "FY9999-2000"
parses into the pair (9999, 2000), but `pd.Timestamp("9999-07-01")`
raises, so the function falls back to `(now, now)` rather than
returning (July 1 of 9999, June 30 of 2000). -/
theorem range_out_of_bounds_fallback_cex :
    ("FY9999-2000").data = fyLabel (9999 : Int) (2000 : Int) ∧
    fyRangeParse ("FY9999-2000").data = some (9999, 2000) ∧
    get_fiscal_year_range ⟨2025, 10, 12⟩ ("FY9999-2000").data
      = (⟨2025, 10, 12⟩, ⟨2025, 10, 12⟩) ∧
    get_fiscal_year_range ⟨2025, 10, 12⟩ ("FY9999-2000").data
      ≠ ((⟨9999, 7, 1⟩ : Date), (⟨2000, 6, 30⟩ : Date)) :=
  ⟨by decide, by decide, by decide, by decide⟩

/-- C10 (amended): `get_fiscal_year_range` does not validate that a
label names a canonical July-to-June fiscal year: for every pair of
years a, b parseable from a label `FY{a}-{b}` and within the
representable timestamp range (1678 ≤ a, b ≤ 2261), it returns
(July 1 of a, June 30 of b) even when b ≠ a + 1; for such
non-canonical labels the end year differs from start year + 1 (the
span is not 12 months) and `get_fiscal_year` of the returned end date
differs from the input label. -/
theorem range_accepts_non_canonical (now : Date) (a b : Nat)
    (ha1 : 1678 ≤ a) (ha2 : a ≤ 2261) (hb1 : 1678 ≤ b) (hb2 : b ≤ 2261) :
    get_fiscal_year_range now (fyLabel (a : Int) (b : Int))
        = (⟨(a : Int), 7, 1⟩, ⟨(b : Int), 6, 30⟩) ∧
    (b ≠ a + 1 →
      get_fiscal_year ⟨(b : Int), 6, 30⟩ ≠ fyLabel (a : Int) (b : Int) ∧
      (⟨(b : Int), 6, 30⟩ : Date).year
        ≠ (⟨(a : Int), 7, 1⟩ : Date).year + 1) := by
  refine ⟨get_fiscal_year_range_inbounds now a b ha1 ha2 hb1 hb2, ?_⟩
  intro hne
  constructor
  · intro heq
    rw [get_fiscal_year_june] at heq
    have hb' : (b : Int) - 1 = ((b - 1 : Nat) : Int) := by omega
    rw [hb'] at heq
    have hp := congrArg fyRangeParse heq
    rw [fyRangeParse_fyLabel (b - 1) b, fyRangeParse_fyLabel a b] at hp
    simp only [Option.some.injEq, Prod.mk.injEq] at hp
    omega
  · show (b : Int) ≠ (a : Int) + 1
    omega

/-- C10 witness: the non-canonical label "FY2022-2025" yields the
three-year range July 1 2022 – June 30 2025, whose end date belongs to
a different fiscal year than the label. -/
theorem range_accepts_non_canonical_witness :
    get_fiscal_year_range ⟨2025, 10, 12⟩
        (fyLabel ((2022 : Nat) : Int) ((2025 : Nat) : Int))
      = (⟨((2022 : Nat) : Int), 7, 1⟩, ⟨((2025 : Nat) : Int), 6, 30⟩) ∧
    get_fiscal_year ⟨((2025 : Nat) : Int), 6, 30⟩
      ≠ fyLabel ((2022 : Nat) : Int) ((2025 : Nat) : Int) := by
  have h := range_accepts_non_canonical ⟨2025, 10, 12⟩ 2022 2025
    (by decide) (by decide) (by decide) (by decide)
  exact ⟨h.1, (h.2 (by decide)).1⟩

/-! ### Claim C2 (missing-rate handling in normalization) -/

/-- C2: evaluation of the code at the failing input. A batch with a
"JPY" row (a non-USD currency with no rate table at all), a "GBP" row
with a present rate, and a "CAD" row whose date has no CAD rate. The
row lambda's final `else row['amount']` silently passes the JPY row
through at its raw amount (100) instead of leaving `amount_usd`
null — the behavior the claim (and the spec's §9 bug note) forbids.
The other two rows show the per-row behavior the claim describes: the
GBP row is still normalized and the CAD row is left null without
aborting the batch. -/
theorem convert_unknown_currency_raw_passthrough :
    (convert_payments_to_usd
        ⟨fun _ => some 2, fun _ => none, fun _ => none, fun _ => none,
          fun _ => none, fun _ => none⟩
        [⟨⟨2024, 1, 15⟩, 100, "JPY", "Portfolio", 1⟩,
         ⟨⟨2024, 1, 15⟩, 50, "GBP", "Portfolio", 1⟩,
         ⟨⟨2024, 1, 15⟩, 70, "CAD", "Portfolio", 1⟩]).map
      (fun p => p.amount_usd) = [some 100, some 100, none] ∧
    (some (100 : ℚ) : Option ℚ) ≠ none := by
  constructor
  · norm_num +decide [convert_payments_to_usd, convertPayment]
  · exact fun h => Option.noConfusion h

/-! ### Claim C3 (multiply/divide direction per currency) -/

/-- C3: for every payment whose rate on the payment date is present
(and positive, as all rates in the series are), the currency-specific
direction is applied: GBP, AUD and EUR amounts are multiplied by the
rate (USD-per-foreign-unit quote); CAD, SGD and CHF amounts are
divided by the rate (foreign-units-per-USD quote). In particular 100
EUR at rate 1.08 yields exactly 108 USD, and 100 CAD at rate 1.35
yields 100/1.35 = 2000/27 USD, which displays as 74.07 at two
decimals. -/
theorem convert_direction (rt : RateTables) (p : Payment) (r : ℚ)
    (hr : 0 < r) :
    (p.currency = "GBP" → rt.gbp p.date = some r →
      (convertPayment rt p).amount_usd = some (p.amount * r)) ∧
    (p.currency = "AUD" → rt.aud p.date = some r →
      (convertPayment rt p).amount_usd = some (p.amount * r)) ∧
    (p.currency = "EUR" → rt.eur p.date = some r →
      (convertPayment rt p).amount_usd = some (p.amount * r)) ∧
    (p.currency = "CAD" → rt.cad p.date = some r →
      (convertPayment rt p).amount_usd = some (p.amount / r)) ∧
    (p.currency = "SGD" → rt.sgd p.date = some r →
      (convertPayment rt p).amount_usd = some (p.amount / r)) ∧
    (p.currency = "CHF" → rt.chf p.date = some r →
      (convertPayment rt p).amount_usd = some (p.amount / r)) ∧
    (convertPayment ⟨fun _ => none, fun _ => none, fun _ => none,
        fun _ => some (108/100), fun _ => none, fun _ => none⟩
      ⟨⟨2024, 1, 15⟩, 100, "EUR", "Portfolio", 1⟩).amount_usd
      = some 108 ∧
    (convertPayment ⟨fun _ => none, fun _ => some (135/100),
        fun _ => none, fun _ => none, fun _ => none, fun _ => none⟩
      ⟨⟨2024, 1, 15⟩, 100, "CAD", "Portfolio", 1⟩).amount_usd
      = some (100 / (135/100)) ∧
    (100 : ℚ) / (135/100) = 2000/27 ∧
    (7407/100 : ℚ) ≤ 2000/27 ∧ (2000/27 : ℚ) < 7407/100 + 1/100 := by
  refine ⟨?_, ?_, ?_, ?_, ?_, ?_,
    by norm_num +decide [convertPayment],
    by norm_num +decide [convertPayment],
    by norm_num, by norm_num, by norm_num⟩ <;>
    intro hc hrt <;> simp +decide [convertPayment, hc, hrt]

/-- C3 witness: the GBP multiply branch at a concrete row and rate. -/
theorem convert_direction_witness :
    (0 : ℚ) < 2 ∧
    (convertPayment ⟨fun _ => some 2, fun _ => none, fun _ => none,
        fun _ => none, fun _ => none, fun _ => none⟩
      ⟨⟨2024, 1, 15⟩, 50, "GBP", "Portfolio", 1⟩).amount_usd
      = some (50 * 2) := by
  refine ⟨by norm_num, ?_⟩
  exact (convert_direction ⟨fun _ => some 2, fun _ => none, fun _ => none,
      fun _ => none, fun _ => none, fun _ => none⟩
    ⟨⟨2024, 1, 15⟩, 50, "GBP", "Portfolio", 1⟩ 2 (by norm_num)).1 rfl rfl

/-! ### Helper lemmas on the money sums -/

theorem ifSumUsd (l : List NormPayment) :
    (if l ≠ [] then sumUsd l else 0) = sumUsd l := by
  by_cases h : l = [] <;> simp [h, sumUsd]

theorem ifSumCf (l : List NormPayment) :
    (if l ≠ [] then sumCf l else 0) = sumCf l := by
  by_cases h : l = [] <;> simp [h, sumCf]

theorem sumUsd_le_of_sublist {l1 l2 : List NormPayment}
    (hs : List.Sublist l1 l2)
    (h : ∀ p ∈ l2, 0 ≤ p.amount_usd.getD 0) : sumUsd l1 ≤ sumUsd l2 := by
  apply List.Sublist.sum_le_sum (hs.map _)
  intro a hae
  obtain ⟨p, hp, rfl⟩ := List.mem_map.1 hae
  exact h p hp

theorem sumUsd_filter_le (q : NormPayment → Bool) (df : List NormPayment)
    (h : ∀ p ∈ df, 0 ≤ p.amount_usd.getD 0) :
    sumUsd (df.filter q) ≤ sumUsd df :=
  sumUsd_le_of_sublist (List.filter_sublist df) h

theorem cfAmount_le (p : NormPayment) (ha : 0 ≤ p.amount_usd.getD 0)
    (hc0 : 0 ≤ p.counterfactuality) (hc1 : p.counterfactuality ≤ 1) :
    cfAmount p ≤ p.amount_usd.getD 0 := by
  unfold cfAmount
  cases h : p.amount_usd with
  | none => simp
  | some a =>
    rw [h] at ha
    simp only [Option.getD_some] at ha
    simp only [Option.map_some, Option.getD_some]
    calc a * p.toPayment.counterfactuality ≤ a * 1 :=
          mul_le_mul_of_nonneg_left hc1 ha
      _ = a := mul_one a

theorem sumCf_le_sumUsd (l : List NormPayment)
    (ha : ∀ p ∈ l, 0 ≤ p.amount_usd.getD 0)
    (hc0 : ∀ p ∈ l, 0 ≤ p.counterfactuality)
    (hc1 : ∀ p ∈ l, p.counterfactuality ≤ 1) :
    sumCf l ≤ sumUsd l := by
  apply List.sum_le_sum
  intro p hp
  exact cfAmount_le p (ha p hp) (hc0 p hp) (hc1 p hp)

/-- Unfolding equation: money moved with no scope. -/
theorem calculate_money_moved_none_eq (now : Date)
    (df : List NormPayment) :
    calculate_money_moved now df none
      = if df ≠ [] then sumUsd df else 0 := rfl

/-- Unfolding equation: money moved with a (truthy or empty) scope. -/
theorem calculate_money_moved_some_eq (now : Date)
    (df : List NormPayment) (fy : List Char) :
    calculate_money_moved now df (some fy)
      = if fy ≠ [] then
          (if df.filter (fun p => inRange (get_fiscal_year_range now fy).1
                (get_fiscal_year_range now fy).2 p.date) ≠ [] then
            sumUsd (df.filter (fun p =>
              inRange (get_fiscal_year_range now fy).1
                (get_fiscal_year_range now fy).2 p.date))
          else 0)
        else if df ≠ [] then sumUsd df else 0 := rfl

/-- Unfolding equation: counterfactual money moved with no scope. -/
theorem calculate_counterfactual_mm_none_eq (now : Date)
    (df : List NormPayment) :
    calculate_counterfactual_mm now df none
      = if df.filter (fun p => ! cfExcluded p) ≠ [] then
          sumCf (df.filter (fun p => ! cfExcluded p))
        else 0 := rfl

/-- Unfolding equation: counterfactual money moved with a scope. -/
theorem calculate_counterfactual_mm_some_eq (now : Date)
    (df : List NormPayment) (fy : List Char) :
    calculate_counterfactual_mm now df (some fy)
      = if fy ≠ [] then
          (if (df.filter (fun p => ! cfExcluded p)).filter (fun p =>
                inRange (get_fiscal_year_range now fy).1
                  (get_fiscal_year_range now fy).2 p.date) ≠ [] then
            sumCf ((df.filter (fun p => ! cfExcluded p)).filter (fun p =>
              inRange (get_fiscal_year_range now fy).1
                (get_fiscal_year_range now fy).2 p.date))
          else 0)
        else if df.filter (fun p => ! cfExcluded p) ≠ [] then
          sumCf (df.filter (fun p => ! cfExcluded p))
        else 0 := rfl

/-! ### Claim C6 (scoped money moved bounded by the total) -/

/-- C6 counterexample: the claim fails as stated once a payment with a
negative normalized amount (e.g. a refund) sits outside the scope. A
table with an in-scope payment of 100 USD and an out-of-scope payment
of −50 USD has scoped money moved 100, while the unscoped total is
only 50. -/
theorem money_moved_scope_gt_total_cex :
    calculate_money_moved ⟨2025, 10, 12⟩
        [⟨⟨⟨2023, 8, 1⟩, 100, "USD", "Portfolio", 1⟩, some 100⟩,
         ⟨⟨⟨2022, 1, 1⟩, -50, "USD", "Portfolio", 1⟩, some (-50)⟩]
        (some (("FY2023-2024").data)) = 100 ∧
    calculate_money_moved ⟨2025, 10, 12⟩
        [⟨⟨⟨2023, 8, 1⟩, 100, "USD", "Portfolio", 1⟩, some 100⟩,
         ⟨⟨⟨2022, 1, 1⟩, -50, "USD", "Portfolio", 1⟩, some (-50)⟩]
        none = 50 ∧
    ¬((100 : ℚ) ≤ 50) := by
  refine ⟨?_, ?_, by norm_num⟩
  · rw [calculate_money_moved_some_eq]
    norm_num +decide [sumUsd]
  · rw [calculate_money_moved_none_eq]
    norm_num +decide [sumUsd]

/-- C6 (amended): with every defined `amount_usd` nonnegative, money
moved restricted to any fiscal-year scope (well-formed or not) does
not exceed money moved over the whole table. -/
theorem money_moved_scope_le_total (now : Date) (df : List NormPayment)
    (fy : List Char) (h : ∀ p ∈ df, 0 ≤ p.amount_usd.getD 0) :
    calculate_money_moved now df (some fy)
      ≤ calculate_money_moved now df none := by
  rw [calculate_money_moved_some_eq, calculate_money_moved_none_eq,
    ifSumUsd]
  by_cases hfy : fy = []
  · rw [if_neg (show ¬(fy ≠ []) by simp [hfy]), ifSumUsd]
  · rw [if_pos hfy, ifSumUsd]
    exact sumUsd_filter_le _ df h

/-- C6 witness: the amended bound at a concrete two-row table. -/
theorem money_moved_scope_le_total_witness :
    calculate_money_moved ⟨2025, 10, 12⟩
        [⟨⟨⟨2023, 8, 1⟩, 100, "USD", "Portfolio", 1⟩, some 100⟩,
         ⟨⟨⟨2022, 1, 1⟩, 50, "USD", "Portfolio", 1⟩, some 50⟩]
        (some (("FY2023-2024").data))
      ≤ calculate_money_moved ⟨2025, 10, 12⟩
        [⟨⟨⟨2023, 8, 1⟩, 100, "USD", "Portfolio", 1⟩, some 100⟩,
         ⟨⟨⟨2022, 1, 1⟩, 50, "USD", "Portfolio", 1⟩, some 50⟩]
        none := by
  apply money_moved_scope_le_total
  intro p hp
  simp only [List.mem_cons, List.not_mem_nil, or_false] at hp
  rcases hp with rfl | rfl <;> norm_num

/-! ### Claim C7 (counterfactual money moved bounded by money moved) -/

/-- C7 counterexample: the claim fails as stated for a payment with a
negative normalized amount: a single payment of −100 USD with
counterfactuality 0 (which is ≤ 1, and within the documented 0–1
range) gives counterfactual money moved 0, which exceeds money moved
−100. -/
theorem cf_exceeds_money_moved_cex :
    (∀ p ∈ [(⟨⟨⟨2024, 1, 1⟩, -100, "USD", "Portfolio", 0⟩, some (-100)⟩ :
        NormPayment)], p.counterfactuality ≤ 1) ∧
    calculate_money_moved ⟨2025, 10, 12⟩
        [⟨⟨⟨2024, 1, 1⟩, -100, "USD", "Portfolio", 0⟩, some (-100)⟩]
        none = -100 ∧
    calculate_counterfactual_mm ⟨2025, 10, 12⟩
        [⟨⟨⟨2024, 1, 1⟩, -100, "USD", "Portfolio", 0⟩, some (-100)⟩]
        none = 0 ∧
    ¬((0 : ℚ) ≤ -100) := by
  refine ⟨?_, ?_, ?_, by norm_num⟩
  · intro p hp
    simp only [List.mem_cons, List.not_mem_nil, or_false] at hp
    subst hp
    norm_num
  · rw [calculate_money_moved_none_eq]
    norm_num +decide [sumUsd]
  · rw [calculate_counterfactual_mm_none_eq]
    norm_num +decide [sumCf, cfAmount, cfExcluded]

/-- C7 (amended): with every defined `amount_usd` nonnegative and every
counterfactuality between 0 and 1 (the documented range), the
counterfactual money moved never exceeds the money moved over the same
table and scope (including no scope). -/
theorem cf_le_money_moved (now : Date) (df : List NormPayment)
    (fy : Option (List Char))
    (ha : ∀ p ∈ df, 0 ≤ p.amount_usd.getD 0)
    (hc0 : ∀ p ∈ df, 0 ≤ p.counterfactuality)
    (hc1 : ∀ p ∈ df, p.counterfactuality ≤ 1) :
    calculate_counterfactual_mm now df fy
      ≤ calculate_money_moved now df fy := by
  have key : ∀ l : List NormPayment, List.Sublist l df →
      sumCf (l.filter (fun p => ! cfExcluded p)) ≤ sumUsd l := by
    intro l hl
    have hsub : List.Sublist (l.filter (fun p => ! cfExcluded p)) l :=
      List.filter_sublist l
    have hmem : ∀ p ∈ l.filter (fun p => ! cfExcluded p), p ∈ df :=
      fun p hp => hl.mem (hsub.mem hp)
    calc sumCf (l.filter (fun p => ! cfExcluded p))
        ≤ sumUsd (l.filter (fun p => ! cfExcluded p)) :=
          sumCf_le_sumUsd _ (fun p hp => ha p (hmem p hp))
            (fun p hp => hc0 p (hmem p hp)) (fun p hp => hc1 p (hmem p hp))
      _ ≤ sumUsd l := sumUsd_le_of_sublist hsub
          (fun p hp => ha p (hl.mem hp))
  cases fy with
  | none =>
    rw [calculate_counterfactual_mm_none_eq, calculate_money_moved_none_eq,
      ifSumCf, ifSumUsd]
    exact key df (List.Sublist.refl df)
  | some fyl =>
    rw [calculate_counterfactual_mm_some_eq, calculate_money_moved_some_eq]
    by_cases hfy : fyl = []
    · rw [if_neg (show ¬(fyl ≠ []) by simp [hfy]),
        if_neg (show ¬(fyl ≠ []) by simp [hfy]), ifSumCf, ifSumUsd]
      exact key df (List.Sublist.refl df)
    · rw [if_pos hfy, if_pos hfy, ifSumCf, ifSumUsd]
      rw [List.filter_comm]
      exact key _ (List.filter_sublist df)

/-- C7 witness: the amended bound at a concrete one-row table. -/
theorem cf_le_money_moved_witness :
    calculate_counterfactual_mm ⟨2025, 10, 12⟩
        [⟨⟨⟨2024, 1, 1⟩, 100, "USD", "Portfolio", 1/2⟩, some 100⟩] none
      ≤ calculate_money_moved ⟨2025, 10, 12⟩
        [⟨⟨⟨2024, 1, 1⟩, 100, "USD", "Portfolio", 1/2⟩, some 100⟩] none := by
  apply cf_le_money_moved
  all_goals
    intro p hp
    simp only [List.mem_cons, List.not_mem_nil, or_false] at hp
    subst hp
    norm_num

/-- Unfolding equation for the attrition rate. -/
theorem calculate_pledge_attrition_rate_eq (df : List Pledge) :
    calculate_pledge_attrition_rate df
      = if df.length > 0 then
          (((df.filter isCancelled).length : ℚ) / (df.length : ℚ)) * 100
        else 0 := rfl

/-- Unfolding equation for the by-channel ARR. -/
theorem calculate_arr_by_channel_eq (now : Date) (pf : List Pledge)
    (fy : Option (List Char)) :
    calculate_arr_by_channel now pf fy
      = (((scopePledges now pf fy).filter
          (fun p => p.pledge_status = "Active donor")).map annualValue).sum :=
  rfl

/-- Unfolding equation for the chapter ARR grouping. -/
theorem calculate_chapter_arr_eq (now : Date) (pf : List Pledge)
    (fy : Option (List Char)) :
    calculate_chapter_arr now pf fy
      = (((scopePledges now pf fy).filter
            (fun p => p.pledge_status = "Active donor")).map
          (fun p => p.chapter_type)).dedup.map
          (fun k => (k, ((((scopePledges now pf fy).filter
              (fun p => p.pledge_status = "Active donor")).filter
            (fun p => p.chapter_type = k)).map annualValue).sum)) := rfl

/-! ### Claim C8 (attrition-rate formula) -/

/-- C8: for every non-empty pledge table the attrition rate equals the
spec formula `count(status ∈ {Payment failure, Churned donor}) /
count(all pledges) * 100`; in particular a 10-pledge table with 2
"Churned donor" and 1 "Payment failure" yields 30.0. -/
theorem attrition_rate_matches_spec (df : List Pledge) (h : df ≠ []) :
    calculate_pledge_attrition_rate df = spec_attrition_rate df ∧
    calculate_pledge_attrition_rate
      [⟨"p1", "d1", "Churned donor", ⟨2024, 1, 1⟩, "UG", none⟩,
       ⟨"p2", "d2", "Churned donor", ⟨2024, 1, 2⟩, "UG", none⟩,
       ⟨"p3", "d3", "Payment failure", ⟨2024, 1, 3⟩, "UG", none⟩,
       ⟨"p4", "d4", "Active donor", ⟨2024, 1, 4⟩, "UG", none⟩,
       ⟨"p5", "d5", "Active donor", ⟨2024, 1, 5⟩, "UG", none⟩,
       ⟨"p6", "d6", "Active donor", ⟨2024, 1, 6⟩, "UG", none⟩,
       ⟨"p7", "d7", "Active donor", ⟨2024, 1, 7⟩, "UG", none⟩,
       ⟨"p8", "d8", "Active donor", ⟨2024, 1, 8⟩, "UG", none⟩,
       ⟨"p9", "d9", "Pledged donor", ⟨2024, 1, 9⟩, "UG", none⟩,
       ⟨"p10", "d10", "Pledged donor", ⟨2024, 1, 10⟩, "UG", none⟩]
      = 30 := by
  constructor
  · rw [calculate_pledge_attrition_rate_eq]
    unfold spec_attrition_rate
    rw [List.countP_eq_length_filter,
      if_pos (List.length_pos.2 h)]
  · rw [calculate_pledge_attrition_rate_eq]
    norm_num +decide [isCancelled]

/-- C8 witness: the formula agreement at a concrete one-row table. -/
theorem attrition_rate_matches_spec_witness :
    ([(⟨"p1", "d1", "Active donor", ⟨2024, 1, 1⟩, "UG", none⟩ : Pledge)]
        ≠ []) ∧
    calculate_pledge_attrition_rate
        [⟨"p1", "d1", "Active donor", ⟨2024, 1, 1⟩, "UG", none⟩]
      = spec_attrition_rate
        [⟨"p1", "d1", "Active donor", ⟨2024, 1, 1⟩, "UG", none⟩] :=
  ⟨by decide,
    (attrition_rate_matches_spec
      [⟨"p1", "d1", "Active donor", ⟨2024, 1, 1⟩, "UG", none⟩]
      (by decide)).1⟩

/-! ### Claim C9 (empty scopes give zero/empty results, no errors) -/

/-- C9: every Metrics Engine aggregation over a scope with zero
matching rows is a well-defined zero or empty value: money moved and
counterfactual money moved over a date scope matching no payment are
0, the ARR aggregations over a scope with no active pledge are 0
(by-channel) and the empty grouping (by-chapter), and the unscoped
aggregations (attrition rate, donor and pledge counts) over an empty
pledge table are 0. In the embedding every aggregation is total, so no
exception can be raised. -/
theorem empty_scope_well_defined (now : Date) (fy : List Char)
    (hfy : fy ≠ []) (df : List NormPayment) (pf : List Pledge)
    (hdf : df.filter (fun p => inRange (get_fiscal_year_range now fy).1
        (get_fiscal_year_range now fy).2 p.date) = [])
    (hpf : (scopePledges now pf (some fy)).filter
        (fun p => p.pledge_status = "Active donor") = []) :
    calculate_money_moved now df (some fy) = 0 ∧
    calculate_counterfactual_mm now df (some fy) = 0 ∧
    calculate_arr_by_channel now pf (some fy) = 0 ∧
    calculate_chapter_arr now pf (some fy) = [] ∧
    calculate_pledge_attrition_rate ([] : List Pledge) = 0 ∧
    count_active_donors ([] : List Pledge) = 0 ∧
    count_active_pledges ([] : List Pledge) = 0 := by
  refine ⟨?_, ?_, ?_, ?_, rfl, rfl, rfl⟩
  · rw [calculate_money_moved_some_eq, if_pos hfy, hdf]
    simp
  · rw [calculate_counterfactual_mm_some_eq, if_pos hfy]
    have hsub : List.Sublist
        ((df.filter (fun p => ! cfExcluded p)).filter (fun p =>
          inRange (get_fiscal_year_range now fy).1
            (get_fiscal_year_range now fy).2 p.date))
        (df.filter (fun p => inRange (get_fiscal_year_range now fy).1
          (get_fiscal_year_range now fy).2 p.date)) :=
      List.Sublist.filter _ (List.filter_sublist df)
    rw [hdf] at hsub
    rw [List.sublist_nil.mp hsub]
    simp
  · rw [calculate_arr_by_channel_eq, hpf]
    rfl
  · rw [calculate_chapter_arr_eq, hpf]
    rfl

/-- C9 witness: the empty-scope results at a concrete empty table and
the scope "FY2023-2024"; in particular `chapter_arr` over an empty
pledge set returns the empty grouping. -/
theorem empty_scope_well_defined_witness :
    calculate_money_moved ⟨2025, 10, 12⟩ []
        (some (("FY2023-2024").data)) = 0 ∧
    calculate_chapter_arr ⟨2025, 10, 12⟩ []
        (some (("FY2023-2024").data)) = [] := by
  have h := empty_scope_well_defined ⟨2025, 10, 12⟩ ("FY2023-2024").data
    (by decide) [] [] rfl rfl
  exact ⟨h.1, h.2.2.2.1⟩

end OFTW
